import Mathlib

/-!
# Verification of the music-indexer ingestion pipeline (src/indexer.py)

Shallow embedding of the indexer's data model and operations.

Strings are modelled as lists of Unicode code points (`Str := List Nat`);
the ASCII subset suffices for all string manipulation the code performs
(lowercasing, whitespace stripping and the character class `[^a-z0-9\s]`
of `normalise_string`).  External collaborators (AcoustID, MusicBrainz,
the filesystem, Mongo, the ID3 tag container) are modelled as explicit
inputs: each file's processing context records the outcome each external
call would produce, and the Mongo collection is a list of documents
threaded through the pipeline.  Side effects relevant to the temporal
claims (sleeps, registry calls) are recorded in an event trace.
-/

/-- Strings as lists of Unicode code points. -/
abbrev Str := List Nat

/-- The literal `"Unknown"` (default artist, `indexer.py` line 147). -/
def strUnknown : Str := [85, 110, 107, 110, 111, 119, 110]

/-- The literal `"Auto-indexed"` (the `notes` field, line 203). -/
def strAutoIndexed : Str := [65, 117, 116, 111, 45, 105, 110, 100, 101, 120, 101, 100]

/-! ## Normalizer (`normalise_string`, lines 34-37)

```python
def normalise_string(value: str) -> str:
    value = value.lower().strip()
    value = re.sub(r"[^a-z0-9\s]", "", value)
    return value
```
-/

/-- Whitespace as matched by Python's `str.strip` and the regex class `\s`
(ASCII fragment): space, tab, newline, vertical tab, form feed, carriage
return. -/
def isPyWs (n : Nat) : Bool :=
  n == 32 || n == 9 || n == 10 || n == 11 || n == 12 || n == 13

/-- Characters kept by `re.sub(r"[^a-z0-9\s]", "", value)`: lowercase ASCII
letters, ASCII digits, whitespace. -/
def keepChar (n : Nat) : Bool :=
  (decide (97 ≤ n) && decide (n ≤ 122)) ||
  (decide (48 ≤ n) && decide (n ≤ 57)) ||
  isPyWs n

/-- ASCII action of Python's `str.lower`: map `A`-`Z` to `a`-`z`, fix the rest. -/
def pyLowerChar (n : Nat) : Nat :=
  if 65 ≤ n ∧ n ≤ 90 then n + 32 else n

/-- Python's `str.strip`: drop leading and trailing whitespace. -/
def pyStrip (l : Str) : Str :=
  ((l.dropWhile isPyWs).reverse.dropWhile isPyWs).reverse

/-- Model of `normalise_string` (lines 34-37): lowercase, strip, then delete every
character outside `[a-z0-9\s]`. -/
def normalise_string (value : Str) : Str :=
  (pyStrip (value.map pyLowerChar)).filter keepChar

/-! ## Stability detector (`is_file_stable`, lines 40-43)

```python
def is_file_stable(path: Path, wait_seconds=5):
    initial_size = path.stat().st_size
    time.sleep(wait_seconds)
    return path.stat().st_size == initial_size
```

The two `path.stat()` calls are modelled as `Option Nat` inputs: `none`
means the call raises (the file vanished), `some n` returns size `n`.
A raising `stat` makes the whole function raise, modelled as
`Except.error`.  The `time.sleep` between the reads is recorded in the
event trace. -/

/-- Externally observable effects of a pipeline run: blocking sleeps and
MusicBrainz registry calls (the only effects the temporal claims mention). -/
inductive Event where
  | sleep (seconds : Nat)
  | registryCall (recording_id : Str)
  deriving DecidableEq, Repr

/-- Model of `is_file_stable` (lines 40-43): returns whether the two size reads
agree; raises (`Except.error`) if either `stat` raises.  The emitted
trace holds the `time.sleep(wait_seconds)` when it is reached. -/
def is_file_stable (stat1 stat2 : Option Nat) (wait_seconds : Nat := 5) :
    List Event × Except Unit Bool :=
  match stat1 with
  | none => ([], Except.error ())
  | some initial_size =>
    match stat2 with
    | none => ([Event.sleep wait_seconds], Except.error ())
    | some second_size =>
      ([Event.sleep wait_seconds], Except.ok (second_size == initial_size))

/-! ## Tag writer (`write_id3_tags`, lines 46-79)

The embedded ID3 tag container of a file is modelled as an optional record
of the fields the code touches: `none` means the file has no tag container
yet (opening it with `EasyID3` raises, and the code creates an empty
container before populating it). -/

/-- The tag fields `write_id3_tags` touches. -/
structure TagFields where
  title : Option Str
  artist : Option Str
  album : Option Str
  genre : Option (List Str)
  date : Option Str
  deriving DecidableEq, Repr

/-- An ID3 container holding no tags (result of `audio.add_tags()`). -/
def emptyTags : TagFields :=
  { title := none, artist := none, album := none, genre := none, date := none }

/-- Python truthiness of an optional string (`None` and `""` are falsy). -/
def truthyStr : Option Str → Bool
  | none => false
  | some s => s != []

/-- Model of `write_id3_tags` (lines 46-79).  Creates the tag container if absent;
always sets `title` and `artist`; sets `album`, `genre`, `date` only when
the given value is truthy (non-`None`, non-empty). -/
def write_id3_tags (tags : Option TagFields) (title artist : Str)
    (album : Option Str) (genres : List Str) (release_date : Option Str) :
    TagFields :=
  let audio := match tags with
    | some t => t
    | none => emptyTags
  let audio := { audio with title := some title, artist := some artist }
  let audio := if truthyStr album then { audio with album := album } else audio
  let audio := if genres != [] then { audio with genre := some genres } else audio
  let audio := if truthyStr release_date then { audio with date := release_date } else audio
  audio

/-! ## MusicBrainz enrichment (`fetch_musicbrainz_metadata`, lines 83-124)

The registry response `result["recording"]` is modelled as a record of the
three lists the code reads.  An artist-credit entry is either a dict with
an artist name and an optional join phrase (absent modelled as the default
`""`), or a bare string, which the code's `isinstance(a, dict)` filter
skips.  A release is a title plus an optional `date` key.  The call
itself is an `Except`: `Except.error` means `get_recording_by_id` raised,
which the code catches, returning the empty dict `{}`. -/

/-- One entry of `rec["artist-credit"]`. -/
inductive ACEntry where
  | dict (name joinphrase : Str)
  | str (s : Str)
  deriving DecidableEq, Repr

/-- One entry of `rec["release-list"]`: `title`, and `date` when the key
is present. -/
structure Release where
  title : Str
  date : Option Str
  deriving DecidableEq, Repr

/-- The parts of `result["recording"]` the code reads. -/
structure Recording where
  tagList : List Str
  artistCredit : List ACEntry
  releaseList : List Release
  deriving DecidableEq, Repr

/-- The dict returned by `fetch_musicbrainz_metadata`, keyed by the fields
`process_file` later calls `.get` on.  The `*_lower` keys of the Python
dict are unused downstream and omitted. -/
structure MBData where
  mb_artist : Option Str
  genres : List Str
  album : Option Str
  release_date : Option Str
  deriving DecidableEq, Repr

/-- The empty dict `{}` returned on any exception: every `.get` yields
`None`, and `.get("genres", [])` yields `[]`. -/
def emptyMBData : MBData :=
  { mb_artist := none, genres := [], album := none, release_date := none }

/-- The string join of `"".join(a["artist"]["name"] + a.get("joinphrase", "")
for a in artists if isinstance(a, dict))`. -/
def joinArtistCredit (artists : List ACEntry) : Str :=
  (artists.filterMap fun a =>
    match a with
    | ACEntry.dict name joinphrase => some (name ++ joinphrase)
    | ACEntry.str _ => none).flatten

/-- Model of `fetch_musicbrainz_metadata` (lines 83-124): extract genres, the
concatenated artist credit, and the first release's title and date; any
exception from the registry call yields `{}`. -/
def fetch_musicbrainz_metadata (response : Except Unit Recording) : MBData :=
  match response with
  | Except.error _ => emptyMBData
  | Except.ok rec =>
    let tags := rec.tagList
    let artist : Option Str :=
      if rec.artistCredit != [] then some (joinArtistCredit rec.artistCredit) else none
    let album : Option Str := (rec.releaseList.head?).map Release.title
    let release_date : Option Str := (rec.releaseList.head?).bind Release.date
    { mb_artist := artist, genres := tags, album := album, release_date := release_date }

/-! ## The persisted document (lines 185-204) -/

/-- Confidence scores are floats in the source; they flow through the
pipeline unmodified (stored on match, `None` otherwise), so they are
modelled by an opaque discrete carrier. -/
abbrev Score := Nat

/-- The Mongo document built by `process_file` (lines 185-204).
`date_added` (a UTC timestamp) is an opaque value supplied by the clock. -/
structure Doc where
  _id : Str
  music_id : Option Str
  music_file : Str
  title : Str
  title_lower : Str
  artist : Str
  artist_lower : Str
  album : Option Str
  album_lower : Option Str
  genres : List Str
  genres_lower : List Str
  release_date : Option Str
  duration_seconds : Nat
  bitrate_kbps : Nat
  acoustid_score : Option Score
  musicbrainz_id : Option Str
  date_added : Nat
  notes : Str
  deriving DecidableEq, Repr

/-- The Mongo collection: a list of documents.  Mongo's `_id` uniqueness
is an invariant of well-formed states (see `goodDB`). -/
abbrev DB := List Doc

/-- Model of `collection.find_one` keyed by `music_file`. -/
def find_one_music_file (db : DB) (path : Str) : Option Doc :=
  db.find? fun d => d.music_file == path

/-- Model of the upsert `collection.update_one` keyed by `_id` where
`doc` carries every field: replaces the matched document wholesale, or
inserts when no document matches. -/
def upsert (db : DB) (key : Str) (doc : Doc) : DB :=
  if db.any (fun d => d._id == key) then
    db.map fun d => if d._id == key then doc else d
  else
    db ++ [doc]

/-! ## Single-file pipeline (`process_file`, lines 128-208)

All external outcomes a single file's run can observe are collected in a
processing context `FileCtx`: the two `stat` reads of the stability check,
whether `MP3(file_path)` succeeds and what audio features it reports, the
AcoustID fingerprint-and-lookup outcome (`Except.error` models a raised
`acoustid.AcoustidError`, `Except.ok` the parsed candidate list of
`acoustid.parse_lookup_result`), the registry response that
`musicbrainzngs.get_recording_by_id` would produce if called, the file's
current ID3 container, and the clock value used for `date_added`. -/

/-- One candidate `(score, uuid, rec_title, rec_artist)` yielded by
`acoustid.parse_lookup_result`; title and artist may be `None`. -/
structure Candidate where
  score : Score
  uuid : Str
  rec_title : Option Str
  rec_artist : Option Str
  deriving DecidableEq, Repr

/-- Python's `x or d` for `x` an optional string: `None` and `""` are
falsy and yield the default. -/
def pyOrStr (x : Option Str) (d : Str) : Str :=
  match x with
  | none => d
  | some s => if s = [] then d else s

/-- The processing context of one file: its identity and every external
outcome its run can observe. -/
structure FileCtx where
  /-- Python value `file_path.stem` -/
  stem : Str
  /-- Python value `str(file_path.resolve())` -/
  resolvedPath : Str
  /-- first `path.stat().st_size` of the stability check; `none` = raises -/
  stat1 : Option Nat
  /-- second `path.stat().st_size`; `none` = raises -/
  stat2 : Option Nat
  /-- whether `MP3(file_path)` (audio inspection, line 140) succeeds -/
  mp3Ok : Bool
  /-- Python value `int(audio.info.length)` -/
  duration_seconds : Nat
  /-- Python value `int(audio.info.bitrate / 1000)` -/
  bitrate_kbps : Nat
  /-- outcome of fingerprint + lookup + parse (lines 151-154):
  `Except.error` models a raised `acoustid.AcoustidError` -/
  acoustid_result : Except Unit (List Candidate)
  /-- the registry's response, observed only if the pipeline calls it -/
  registry_response : Except Unit Recording
  /-- the file's ID3 container before the run (`none` = no tags yet) -/
  tags : Option TagFields
  /-- clock value for `datetime.now(timezone.utc)` -/
  now : Nat
  deriving Repr

/-- The identity fields after the AcoustID stage (lines 144-163): defaults,
then the first candidate when the lookup succeeds, or the bare-stem
fallback `music_id = file_path.stem` when it raises. -/
structure Resolved where
  music_id : Option Str
  title : Str
  artist : Str
  acoustid_score : Option Score
  deriving DecidableEq, Repr

/-- Lines 144-163: `music_id/title/artist/acoustid_score` after the
AcoustID stage.  On success only the first parsed candidate is consumed
(the loop breaks); a falsy candidate title/artist leaves the default. -/
def resolveIdentity (stem : Str) (r : Except Unit (List Candidate)) : Resolved :=
  match r with
  | Except.error _ =>
    { music_id := some stem, title := stem, artist := strUnknown, acoustid_score := none }
  | Except.ok results =>
    match results.head? with
    | none =>
      { music_id := none, title := stem, artist := strUnknown, acoustid_score := none }
    | some c =>
      { music_id := some c.uuid, title := pyOrStr c.rec_title stem,
        artist := pyOrStr c.rec_artist strUnknown, acoustid_score := some c.score }

/-- Line 167: `if music_id and music_id != file_path.stem` — enrichment
runs only for a truthy identifier different from the bare-stem fallback. -/
def enrichGate (music_id : Option Str) (stem : Str) : Bool :=
  match music_id with
  | none => false
  | some m => m != [] && m != stem

/-- The `mb_data` dict in scope after lines 165-171. -/
def pfMBData (ctx : FileCtx) (res : Resolved) : MBData :=
  if enrichGate res.music_id ctx.stem then
    fetch_musicbrainz_metadata ctx.registry_response
  else
    emptyMBData

/-- Registry events of lines 165-171: when the gate passes, one registry
call (inside `fetch_musicbrainz_metadata`) then `time.sleep(1)`. -/
def pfEnrichEvents (ctx : FileCtx) (res : Resolved) : List Event :=
  if enrichGate res.music_id ctx.stem then
    [Event.registryCall (res.music_id.getD []), Event.sleep 1]
  else
    []

/-- The document assembled at lines 185-204. -/
def buildDoc (ctx : FileCtx) (res : Resolved) (mb : MBData) : Doc :=
  let final_artist := pyOrStr mb.mb_artist res.artist
  { _id := ctx.resolvedPath
    music_id := res.music_id
    music_file := ctx.resolvedPath
    title := res.title
    title_lower := normalise_string res.title
    artist := final_artist
    artist_lower := normalise_string final_artist
    album := mb.album
    album_lower := if truthyStr mb.album then mb.album.map normalise_string else none
    genres := mb.genres
    genres_lower := mb.genres.map normalise_string
    release_date := mb.release_date
    duration_seconds := ctx.duration_seconds
    bitrate_kbps := ctx.bitrate_kbps
    acoustid_score := res.acoustid_score
    musicbrainz_id := res.music_id
    date_added := ctx.now
    notes := strAutoIndexed }

/-- Terminal state of one file's run. -/
inductive Outcome where
  | skippedDuplicate
  | skippedUnstable
  | indexed
  deriving DecidableEq, Repr

/-- Result of a completed (non-raising) `process_file` run: the new
collection state, the file's ID3 container afterwards, and how the run
ended. -/
structure PFState where
  db : DB
  tags : Option TagFields
  outcome : Outcome
  deriving Repr

/-- The state after the full (non-skipped) run of lines 139-208: resolve
identity, gate enrichment, write tags, build the document and upsert it. -/
def pfIndexedState (ctx : FileCtx) (db : DB) : PFState :=
  let res := resolveIdentity ctx.stem ctx.acoustid_result
  let mb := pfMBData ctx res
  let newTags := write_id3_tags ctx.tags res.title (pyOrStr mb.mb_artist res.artist)
    mb.album mb.genres mb.release_date
  let doc := buildDoc ctx res mb
  { db := upsert db ctx.resolvedPath doc, tags := some newTags,
    outcome := Outcome.indexed }

/-- Model of `process_file` (lines 128-208).  Returns the event trace emitted up to
the point the run ends, and either the completed state or `Except.error`
when an uncaught exception propagates (a vanished file during the
stability check, or a failing `MP3()` audio inspection). -/
def process_file (ctx : FileCtx) (db : DB) : List Event × Except Unit PFState :=
  if (find_one_music_file db ctx.resolvedPath).isSome then
    ([], Except.ok { db := db, tags := ctx.tags, outcome := Outcome.skippedDuplicate })
  else
    match is_file_stable ctx.stat1 ctx.stat2 with
    | (stEvents, Except.error e) => (stEvents, Except.error e)
    | (stEvents, Except.ok stable) =>
      if !stable then
        (stEvents, Except.ok { db := db, tags := ctx.tags, outcome := Outcome.skippedUnstable })
      else if !ctx.mp3Ok then
        (stEvents, Except.error ())
      else
        (stEvents ++ pfEnrichEvents ctx (resolveIdentity ctx.stem ctx.acoustid_result),
          Except.ok (pfIndexedState ctx db))

/-! ## Batch loop (`index_all`, lines 212-214)

```python
def index_all():
    for file_path in DOWNLOAD_DIR.glob("*.mp3"):
        process_file(file_path)
```

The loop has no exception handling: an exception raised by
`process_file` propagates and aborts the remainder of the batch. -/

/-- Model of `index_all` over a directory listing: thread the collection state
through the files in order; a raising `process_file` aborts the batch
(`Except.error`), leaving the remaining files unprocessed. -/
def index_all (files : List FileCtx) (db : DB) : List Event × Except Unit DB :=
  match files with
  | [] => ([], Except.ok db)
  | ctx :: rest =>
    match process_file ctx db with
    | (evs, Except.error e) => (evs, Except.error e)
    | (evs, Except.ok st) =>
      match index_all rest st.db with
      | (evs2, r) => (evs ++ evs2, r)

/-! ## Derived observations on traces and states -/

/-- The registry identifiers of the `registryCall` events of a trace, in
order. -/
def regCalls (evs : List Event) : List Str :=
  evs.filterMap fun e =>
    match e with
    | Event.registryCall m => some m
    | Event.sleep _ => none

/-- Predicate `pauseBetween b evs` holds when, within `evs`, a sleep of at least one
second separates every registry call from the next one; the flag `b`
records whether a registry call is already pending without an intervening
one-second pause. -/
def pauseBetween : Bool → List Event → Bool
  | _, [] => true
  | b, Event.sleep n :: rest => pauseBetween (b && decide (n < 1)) rest
  | b, Event.registryCall _ :: rest => !b && pauseBetween true rest

/-- Well-formed collection states: every document carries its path both as
`_id` and as `music_file`, and Mongo's `_id` uniqueness holds. -/
def goodDB (db : DB) : Prop :=
  (∀ d ∈ db, d._id = d.music_file) ∧ (db.map Doc._id).Nodup

/-! ## Concrete inputs for counterexamples and witnesses -/

/-- The stem `"track07"`. -/
def stemTrack07 : Str := [116, 114, 97, 99, 107, 48, 55]

/-- The string `"file:"`. -/
def strFileColon : Str := [102, 105, 108, 101, 58]

/-- A stand-in for the resolved absolute path `"/m/track07.mp3"`. -/
def pathTrack07 : Str := [47, 109, 47, 116, 114, 97, 99, 107, 48, 55, 46, 109, 112, 51]

/-- A file whose AcoustID lookup raises: the degraded-resolution path. -/
def ctxFallback : FileCtx :=
  { stem := stemTrack07, resolvedPath := pathTrack07, stat1 := some 10, stat2 := some 10,
    mp3Ok := true, duration_seconds := 100, bitrate_kbps := 128,
    acoustid_result := Except.error (), registry_response := Except.error (),
    tags := none, now := 0 }

/-- A file whose AcoustID lookup succeeds but returns no candidates. -/
def ctxNoMatch : FileCtx :=
  { ctxFallback with acoustid_result := Except.ok [] }

/-- A successfully matched file: one candidate with the genuine external
identifier `"mbid99"` and full metadata. -/
def ctxMatched : FileCtx :=
  { ctxFallback with
    acoustid_result := Except.ok
      [{ score := 9, uuid := [109, 98, 105, 100, 57, 57],
         rec_title := some [116], rec_artist := some [97] }] }

/-- A matched file whose genuine candidate identifier happens to equal the
file's stem. -/
def ctxStemUuid : FileCtx :=
  { ctxFallback with
    acoustid_result := Except.ok
      [{ score := 9, uuid := stemTrack07,
         rec_title := some [116], rec_artist := some [97] }] }

/-- A file that vanishes before the first `stat` of the stability check. -/
def ctxVanished : FileCtx :=
  { ctxFallback with stat1 := none }

/-- A matched file whose candidate is missing both title and artist, while
the registry supplies an artist credit `"x"`. -/
def ctxNoCandArtist : FileCtx :=
  { ctxFallback with
    acoustid_result := Except.ok
      [{ score := 9, uuid := [109, 98, 105, 100, 57, 57],
         rec_title := none, rec_artist := none }],
    registry_response := Except.ok
      { tagList := [], artistCredit := [ACEntry.dict [120] []], releaseList := [] } }

/-! ## Helper lemmas -/

/-- A kept character is lowercase, a digit or whitespace, so ASCII
lowercasing fixes it. -/
theorem pyLowerChar_of_keepChar (n : Nat) (h : keepChar n = true) : pyLowerChar n = n := by
  simp only [keepChar, isPyWs, Bool.or_eq_true, Bool.and_eq_true, decide_eq_true_eq,
    beq_iff_eq] at h
  rw [pyLowerChar, if_neg]
  omega

/-- Stripping only drops elements. -/
theorem mem_pyStrip {x : Nat} {l : Str} (h : x ∈ pyStrip l) : x ∈ l := by
  rw [pyStrip, List.mem_reverse] at h
  have h2 := (List.dropWhile_sublist _).mem h
  rw [List.mem_reverse] at h2
  exact (List.dropWhile_sublist _).mem h2

/-- Mapping a function that fixes every element is the identity. -/
theorem map_fix {f : Nat → Nat} : ∀ l : Str, (∀ x ∈ l, f x = x) → l.map f = l := by
  intro l h
  induction l with
  | nil => rfl
  | cons a t ih =>
    simp only [List.map_cons, h a (List.mem_cons_self a t),
      ih fun x hx => h x (List.mem_cons_of_mem a hx)]

/-- The upserted document is in the updated collection. -/
theorem mem_upsert_self (db : DB) (k : Str) (d : Doc) : d ∈ upsert db k d := by
  rw [upsert]
  split
  · next h =>
    rw [List.any_eq_true] at h
    obtain ⟨x, hx, hxk⟩ := h
    rw [List.mem_map]
    exact ⟨x, hx, by rw [if_pos hxk]⟩
  · simp

/-- Every document of the updated collection is an old one or the upserted
one. -/
theorem mem_upsert {db : DB} {k : Str} {d x : Doc} (h : x ∈ upsert db k d) :
    x ∈ db ∨ x = d := by
  rw [upsert] at h
  split at h
  · rw [List.mem_map] at h
    obtain ⟨y, hy, hyx⟩ := h
    by_cases hk : (y._id == k) = true
    · rw [if_pos hk] at hyx
      right
      exact hyx.symm
    · rw [if_neg hk] at hyx
      left
      exact hyx ▸ hy
  · rcases List.mem_append.mp h with h' | h'
    · left
      exact h'
    · right
      simpa using h'

/-- Reduction of `process_file` when a document for the path exists:
terminal duplicate skip, nothing else happens. -/
theorem process_file_skip_dup (ctx : FileCtx) (db : DB)
    (h : (find_one_music_file db ctx.resolvedPath).isSome = true) :
    process_file ctx db =
      ([], Except.ok { db := db, tags := ctx.tags, outcome := Outcome.skippedDuplicate }) := by
  rw [process_file, if_pos h]

/-- Reduction of `process_file` on the full path: no duplicate, both size
reads agree, audio inspection succeeds. -/
theorem process_file_run (ctx : FileCtx) (db : DB) (sz : Nat)
    (hdup : find_one_music_file db ctx.resolvedPath = none)
    (h1 : ctx.stat1 = some sz) (h2 : ctx.stat2 = some sz)
    (hmp3 : ctx.mp3Ok = true) :
    process_file ctx db =
      (Event.sleep 5 :: pfEnrichEvents ctx (resolveIdentity ctx.stem ctx.acoustid_result),
       Except.ok (pfIndexedState ctx db)) := by
  rw [process_file, if_neg (by simp [hdup]), h1, h2]
  simp [is_file_stable, hmp3]

/-- A completed run either left the collection untouched (one of the two
skips) or produced the indexed state. -/
theorem process_file_ok_cases {ctx : FileCtx} {db : DB} {st : PFState}
    (h : (process_file ctx db).2 = Except.ok st) :
    (st.db = db ∧ (st.outcome = Outcome.skippedDuplicate ∨ st.outcome = Outcome.skippedUnstable))
      ∨ st = pfIndexedState ctx db := by
  rw [process_file] at h
  by_cases hdup : (find_one_music_file db ctx.resolvedPath).isSome
  · rw [if_pos hdup] at h
    simp only [Except.ok.injEq] at h
    left
    rw [← h]
    exact ⟨rfl, Or.inl rfl⟩
  · rw [if_neg hdup] at h
    rcases hsm : is_file_stable ctx.stat1 ctx.stat2 with ⟨evs, r⟩
    rw [hsm] at h
    cases r with
    | error e => simp at h
    | ok stable =>
      by_cases hs : stable = true
      · rw [hs] at h
        simp only [Bool.not_true, Bool.false_eq_true, if_false] at h
        by_cases hm : ctx.mp3Ok = true
        · rw [hm] at h
          simp only [Bool.not_true, Bool.false_eq_true, if_false, Except.ok.injEq] at h
          right
          exact h.symm
        · rw [Bool.not_eq_true] at hm
          rw [hm] at h
          simp at h
      · rw [Bool.not_eq_true] at hs
        rw [hs] at h
        simp only [Bool.not_false, if_true, Except.ok.injEq] at h
        left
        rw [← h]
        exact ⟨rfl, Or.inr rfl⟩

/-- The trace of a single file's run has one of three shapes: nothing, the
stability sleep alone, or the stability sleep, one registry call and the
one-second rate-limit pause. -/
theorem process_file_trace_shape (ctx : FileCtx) (db : DB) :
    (process_file ctx db).1 = [] ∨ (process_file ctx db).1 = [Event.sleep 5] ∨
    ∃ m, (process_file ctx db).1 = [Event.sleep 5, Event.registryCall m, Event.sleep 1] := by
  rw [process_file]
  by_cases hdup : (find_one_music_file db ctx.resolvedPath).isSome
  · rw [if_pos hdup]
    left
    rfl
  · rw [if_neg hdup]
    cases h1 : ctx.stat1 with
    | none => simp [is_file_stable]
    | some s1 =>
      cases h2 : ctx.stat2 with
      | none => simp [is_file_stable]
      | some s2 =>
        simp only [is_file_stable]
        by_cases hs : (s2 == s1) = true
        · rw [hs]
          by_cases hm : ctx.mp3Ok
          · rw [hm]
            simp only [Bool.not_true, Bool.false_eq_true, if_false]
            rw [pfEnrichEvents]
            by_cases hg : enrichGate (resolveIdentity ctx.stem ctx.acoustid_result).music_id ctx.stem
            · rw [if_pos hg]
              right; right
              exact ⟨_, rfl⟩
            · rw [if_neg hg]
              right; left
              rfl
          · rw [Bool.not_eq_true] at hm
            rw [hm]
            simp
        · rw [Bool.not_eq_true] at hs
          rw [hs]
          simp

/-- Upserting a document that carries its key as both `_id` and
`music_file` preserves collection well-formedness. -/
theorem goodDB_upsert {db : DB} {k : Str} {d : Doc} (hg : goodDB db)
    (hid : d._id = k) (hmf : d.music_file = k) : goodDB (upsert db k d) := by
  constructor
  · intro x hx
    rcases mem_upsert hx with h | h
    · exact hg.1 x h
    · rw [h, hid, hmf]
  · rw [upsert]
    split
    · have heq : (db.map fun x => if (x._id == k) = true then d else x).map Doc._id
          = db.map Doc._id := by
        rw [List.map_map]
        apply List.map_congr_left
        intro x hx
        by_cases hk : (x._id == k) = true
        · simp only [Function.comp_apply, if_pos hk, hid]
          exact (beq_iff_eq.mp hk).symm
        · simp only [Function.comp_apply, if_neg hk]
      rw [heq]
      exact hg.2
    · next hany =>
      rw [List.map_append, List.map_cons, List.map_nil, hid]
      have hk : k ∉ db.map Doc._id := by
        intro hmem
        rw [List.mem_map] at hmem
        obtain ⟨x, hx, hxk⟩ := hmem
        exact hany (List.any_eq_true.mpr ⟨x, hx, beq_iff_eq.mpr hxk⟩)
      rw [List.nodup_append]
      refine ⟨hg.2, List.nodup_singleton k, ?_⟩
      intro a ha hb
      rw [List.mem_singleton] at hb
      subst hb
      exact hk ha

/-- In a collection with pairwise distinct `_id`s, at most one document
carries any given `_id`. -/
theorem countP_id_le_one {l : List Doc} (h : (l.map Doc._id).Nodup) (p : Str) :
    l.countP (fun d => d._id == p) ≤ 1 := by
  induction l with
  | nil => simp
  | cons a t ih =>
    rw [List.map_cons, List.nodup_cons] at h
    rw [List.countP_cons]
    by_cases ha : (a._id == p) = true
    · have h0 : t.countP (fun d => d._id == p) = 0 := by
        rw [List.countP_eq_zero]
        intro x hx hxp
        apply h.1
        rw [List.mem_map]
        rw [beq_iff_eq] at ha hxp
        exact ⟨x, hx, by rw [hxp, ha]⟩
      rw [h0, if_pos ha]
    · rw [if_neg ha]
      simpa using ih h.2

/-- After an upsert whose document carries path `p` as `music_file`, the
duplicate lookup for `p` finds a document. -/
theorem find_one_upsert_isSome {db : DB} {k p : Str} {d : Doc} (hd : d.music_file = p) :
    (find_one_music_file (upsert db k d) p).isSome = true := by
  rw [find_one_music_file, List.find?_isSome]
  exact ⟨d, mem_upsert_self db k d, by rw [hd, beq_self_eq_true]⟩

/-- In every batch trace, registry calls are separated by a pause of at
least one second: every per-file trace that contains a registry call
follows it immediately with the one-second rate-limit sleep. -/
theorem pauseBetween_index_all (files : List FileCtx) : ∀ (db : DB) (b : Bool),
    pauseBetween b (index_all files db).1 = true := by
  induction files with
  | nil =>
    intro db b
    rfl
  | cons ctx rest ih =>
    intro db b
    rw [index_all]
    rcases hp : process_file ctx db with ⟨evs, r⟩
    have hshape := process_file_trace_shape ctx db
    rw [hp] at hshape
    cases r with
    | error e =>
      rcases hshape with h | h | ⟨m, h⟩ <;> simp only at h <;> subst h <;>
        simp [pauseBetween]
    | ok st =>
      rcases hq : index_all rest st.db with ⟨evs2, r2⟩
      have ih2 := ih st.db
      rw [hq] at ih2
      rcases hshape with h | h | ⟨m, h⟩ <;> simp only at h <;> subst h <;>
        simp [pauseBetween, ih2] <;> exact ih st.db _

/-- When enrichment is gated off, no branch of a file's run emits a
registry call. -/
theorem regCalls_of_gate_false (ctx : FileCtx) (db : DB)
    (hg : enrichGate (resolveIdentity ctx.stem ctx.acoustid_result).music_id ctx.stem = false) :
    regCalls (process_file ctx db).1 = [] := by
  rw [process_file]
  by_cases hdup : (find_one_music_file db ctx.resolvedPath).isSome
  · rw [if_pos hdup]
    rfl
  · rw [if_neg hdup]
    cases h1 : ctx.stat1 with
    | none => simp [is_file_stable, regCalls]
    | some s1 =>
      cases h2 : ctx.stat2 with
      | none => simp [is_file_stable, regCalls]
      | some s2 =>
        simp only [is_file_stable]
        by_cases hs : (s2 == s1) = true
        · rw [hs]
          by_cases hm : ctx.mp3Ok
          · rw [hm]
            simp [pfEnrichEvents, hg, regCalls]
          · rw [Bool.not_eq_true] at hm
            rw [hm]
            simp [regCalls]
        · rw [Bool.not_eq_true] at hs
          rw [hs]
          simp [regCalls]

/-! ## Claims -/

/-- C1, counterexample: for `track07.mp3` with a failing AcoustID lookup,
the persisted `music_id` is the bare stem `"track07"` (line 163 assigns
`music_id = file_path.stem`), which is not the spec's `"file:track07"`. -/
theorem fallback_identity_cex :
    ((process_file ctxFallback []).2.toOption.map fun st => st.db.map Doc.music_id)
        = some [some stemTrack07] ∧
      some stemTrack07 ≠ some (strFileColon ++ stemTrack07) := by
  decide

/-- C1, amended: when the AcoustID lookup raises, the file is still
indexed with `music_id` equal to the file's bare stem (no `file:`
marker), title defaulting to the stem, artist defaulting to the literal
`"Unknown"`, a null confidence score, and no registry call. -/
theorem fallback_identity_amended (ctx : FileCtx) (db : DB) (sz : Nat)
    (hdup : find_one_music_file db ctx.resolvedPath = none)
    (h1 : ctx.stat1 = some sz) (h2 : ctx.stat2 = some sz)
    (hmp3 : ctx.mp3Ok = true)
    (hac : ctx.acoustid_result = Except.error ()) :
    ∃ st, (process_file ctx db).2 = Except.ok st ∧ st.outcome = Outcome.indexed ∧
      regCalls (process_file ctx db).1 = [] ∧
      ∃ d, st.db = upsert db ctx.resolvedPath d ∧
        d.music_id = some ctx.stem ∧ d.title = ctx.stem ∧
        d.artist = strUnknown ∧ d.acoustid_score = none := by
  have hrun := process_file_run ctx db sz hdup h1 h2 hmp3
  refine ⟨pfIndexedState ctx db, by rw [hrun], rfl, ?_, ?_⟩
  · rw [hrun]
    simp [regCalls, pfEnrichEvents, resolveIdentity, hac, enrichGate]
  · exact ⟨buildDoc ctx (resolveIdentity ctx.stem ctx.acoustid_result)
      (pfMBData ctx (resolveIdentity ctx.stem ctx.acoustid_result)), rfl,
      by simp [buildDoc, resolveIdentity, hac],
      by simp [buildDoc, resolveIdentity, hac],
      by simp [buildDoc, resolveIdentity, hac, pfMBData, enrichGate, pyOrStr, emptyMBData],
      by simp [buildDoc, resolveIdentity, hac]⟩

/-- C1, witness: the amended fallback-identity property instantiated on
the concrete `track07` context with a raising lookup. -/
theorem fallback_identity_amended_witness :
    ∃ st, (process_file ctxFallback []).2 = Except.ok st ∧ st.outcome = Outcome.indexed ∧
      regCalls (process_file ctxFallback []).1 = [] ∧
      ∃ d, st.db = upsert [] ctxFallback.resolvedPath d ∧
        d.music_id = some ctxFallback.stem ∧ d.title = ctxFallback.stem ∧
        d.artist = strUnknown ∧ d.acoustid_score = none :=
  fallback_identity_amended ctxFallback [] 10 rfl rfl rfl rfl rfl

/-- C2, counterexample: when the AcoustID lookup succeeds but returns an
empty candidate list, the file is persisted with `music_id = None`, so the
persisted identifier can be null. -/
theorem music_id_never_null_cex :
    ((process_file ctxNoMatch []).2.toOption.map fun st => st.db.map Doc.music_id)
      = some [none] := by
  decide

/-- C2, amended: for every file that reaches persistence, the persisted
`music_id` is the stem fallback when the lookup raised, the first
candidate's external identifier when one was returned, and null exactly
when the lookup succeeded with no candidates. -/
theorem music_id_characterization (ctx : FileCtx) (db : DB) (sz : Nat)
    (hdup : find_one_music_file db ctx.resolvedPath = none)
    (h1 : ctx.stat1 = some sz) (h2 : ctx.stat2 = some sz)
    (hmp3 : ctx.mp3Ok = true) :
    ∃ st d, (process_file ctx db).2 = Except.ok st ∧ st.outcome = Outcome.indexed ∧
      st.db = upsert db ctx.resolvedPath d ∧
      d.music_id = (match ctx.acoustid_result with
        | Except.error _ => some ctx.stem
        | Except.ok results =>
          match results.head? with
          | none => none
          | some c => some c.uuid) := by
  have hrun := process_file_run ctx db sz hdup h1 h2 hmp3
  refine ⟨pfIndexedState ctx db,
    buildDoc ctx (resolveIdentity ctx.stem ctx.acoustid_result)
      (pfMBData ctx (resolveIdentity ctx.stem ctx.acoustid_result)),
    by rw [hrun], rfl, rfl, ?_⟩
  cases hac : ctx.acoustid_result with
  | error e => simp [buildDoc, resolveIdentity, hac]
  | ok results =>
    cases results with
    | nil => simp [buildDoc, resolveIdentity, hac]
    | cons c rest => simp [buildDoc, resolveIdentity, hac]

/-- C2, witness: the `music_id` characterization instantiated on the
concrete no-match context, where the persisted identifier is null. -/
theorem music_id_characterization_witness :
    ∃ st d, (process_file ctxNoMatch []).2 = Except.ok st ∧ st.outcome = Outcome.indexed ∧
      st.db = upsert [] ctxNoMatch.resolvedPath d ∧
      d.music_id = (match ctxNoMatch.acoustid_result with
        | Except.error _ => some ctxNoMatch.stem
        | Except.ok results =>
          match results.head? with
          | none => none
          | some c => some c.uuid) :=
  music_id_characterization ctxNoMatch [] 10 rfl rfl rfl rfl

/-- C3: a second run of the pipeline on the same path after a run that
indexed it short-circuits as a duplicate skip: it emits no events, makes
no registry call, leaves the file's tags untouched and returns the
collection unchanged, so the persisted document is identical after both
runs. -/
theorem second_run_skips (ctx ctx' : FileCtx) (db : DB) (st : PFState)
    (h : (process_file ctx db).2 = Except.ok st) (ho : st.outcome = Outcome.indexed)
    (hpath : ctx'.resolvedPath = ctx.resolvedPath) :
    process_file ctx' st.db =
      ([], Except.ok { db := st.db, tags := ctx'.tags, outcome := Outcome.skippedDuplicate }) := by
  rcases process_file_ok_cases h with ⟨-, ho'⟩ | hst
  · exfalso
    rcases ho' with h' | h' <;> rw [ho] at h' <;> exact Outcome.noConfusion h'
  · apply process_file_skip_dup
    rw [hpath, hst]
    exact find_one_upsert_isSome rfl

/-- C3, witness: the idempotence property instantiated on the concrete
matched context, run a second time on the collection its first run
produced. -/
theorem second_run_skips_witness :
    process_file ctxMatched (pfIndexedState ctxMatched []).db =
      ([], Except.ok { db := (pfIndexedState ctxMatched []).db, tags := ctxMatched.tags,
                       outcome := Outcome.skippedDuplicate }) :=
  second_run_skips ctxMatched ctxMatched [] (pfIndexedState ctxMatched []) rfl rfl rfl

/-- C4, counterexample: a lookup that succeeds with a genuine non-empty
candidate identifier equal to the file's stem triggers no registry call,
because line 167 distinguishes the fallback only by comparing the
identifier against the stem. -/
theorem enrichment_gating_cex :
    (ctxStemUuid.acoustid_result.toOption.map fun l => l.map Candidate.uuid)
        = some [stemTrack07] ∧
    stemTrack07 ≠ [] ∧
    regCalls (process_file ctxStemUuid []).1 = [] := by
  decide

/-- C4, amended: a degraded identity never triggers a registry call; a
genuine resolved identity triggers exactly one registry call unless the
identifier is empty or collides with the file's stem (the fallback
sentinel); and in every batch trace a pause of at least one second
separates each registry call from any subsequent one. -/
theorem enrichment_gating_amended :
    (∀ (ctx : FileCtx) (db : DB), ctx.acoustid_result = Except.error () →
      regCalls (process_file ctx db).1 = []) ∧
    (∀ (ctx : FileCtx) (db : DB) (sz : Nat) (c : Candidate) (rest : List Candidate),
      find_one_music_file db ctx.resolvedPath = none →
      ctx.stat1 = some sz → ctx.stat2 = some sz → ctx.mp3Ok = true →
      ctx.acoustid_result = Except.ok (c :: rest) →
      c.uuid ≠ [] → c.uuid ≠ ctx.stem →
      regCalls (process_file ctx db).1 = [c.uuid]) ∧
    (∀ (files : List FileCtx) (db : DB),
      pauseBetween false (index_all files db).1 = true) := by
  refine ⟨?_, ?_, fun files db => pauseBetween_index_all files db false⟩
  · intro ctx db hac
    apply regCalls_of_gate_false
    simp [resolveIdentity, hac, enrichGate]
  · intro ctx db sz c rest hdup h1 h2 hmp3 hac hne hstem
    rw [process_file_run ctx db sz hdup h1 h2 hmp3]
    simp [regCalls, pfEnrichEvents, resolveIdentity, hac, enrichGate, bne_iff_ne, hne, hstem]

/-- C4, witness: the gating property instantiated on the concrete
degraded context (no call), the matched context (exactly one call), and a
one-file batch (paused trace). -/
theorem enrichment_gating_amended_witness :
    regCalls (process_file ctxFallback []).1 = [] ∧
    regCalls (process_file ctxMatched []).1 = [[109, 98, 105, 100, 57, 57]] ∧
    pauseBetween false (index_all [ctxMatched] []).1 = true :=
  ⟨enrichment_gating_amended.1 ctxFallback [] rfl,
   enrichment_gating_amended.2.1 ctxMatched [] 10
     { score := 9, uuid := [109, 98, 105, 100, 57, 57],
       rec_title := some [116], rec_artist := some [97] } []
     rfl rfl rfl rfl rfl (by decide) (by decide),
   enrichment_gating_amended.2.2 [ctxMatched] []⟩

/-- C5, counterexample: with a vanished file first in the batch and a
healthy file second, the batch aborts with the propagated error and the
healthy file is never processed, although alone it would be indexed. -/
theorem vanish_aborts_batch_cex :
    (index_all [ctxVanished, ctxMatched] []).1 = [] ∧
    (index_all [ctxVanished, ctxMatched] []).2.toOption = none ∧
    ((index_all [ctxMatched] []).2.toOption.map fun db => db.map Doc.music_file)
      = some [pathTrack07] := by
  decide

/-- C5, amended: a file that disappears before the stability check's first
size read makes `process_file` raise, and an exception raised by
`process_file` aborts the entire batch: `index_all` propagates it and the
remaining files are not processed. -/
theorem vanish_aborts_batch :
    (∀ (ctx : FileCtx) (db : DB), find_one_music_file db ctx.resolvedPath = none →
      ctx.stat1 = none → process_file ctx db = ([], Except.error ())) ∧
    (∀ (ctx : FileCtx) (rest : List FileCtx) (db : DB) (evs : List Event),
      process_file ctx db = (evs, Except.error ()) →
      index_all (ctx :: rest) db = (evs, Except.error ())) := by
  constructor
  · intro ctx db hdup h1
    rw [process_file, if_neg (by simp [hdup]), h1]
    simp [is_file_stable]
  · intro ctx rest db evs h
    rw [index_all, h]

/-- C5, witness: the batch-abort property instantiated on the concrete
vanished context followed by a healthy file. -/
theorem vanish_aborts_batch_witness :
    process_file ctxVanished [] = ([], Except.error ()) ∧
    index_all [ctxVanished, ctxMatched] [] = ([], Except.error ()) :=
  ⟨vanish_aborts_batch.1 ctxVanished [] rfl rfl,
   vanish_aborts_batch.2 ctxVanished [ctxMatched] [] []
     (vanish_aborts_batch.1 ctxVanished [] rfl rfl)⟩

/-- C6, counterexample: `normalise_string` is not idempotent: on `"a ."`
it yields `"a "` (the removed dot exposes a trailing space), and a second
application strips that space. -/
theorem normalise_string_not_idempotent :
    normalise_string (normalise_string [97, 32, 46]) ≠ normalise_string [97, 32, 46] := by
  decide

/-- C6, amended: a second application of `normalise_string` only strips
the boundary whitespace that the character-removal step can expose:
`normalise_string (normalise_string s) = pyStrip (normalise_string s)`
for every string, so idempotence holds exactly when no such whitespace is
exposed. -/
theorem normalise_string_double (s : Str) :
    normalise_string (normalise_string s) = pyStrip (normalise_string s) := by
  have hkeep : ∀ x ∈ normalise_string s, keepChar x = true := fun x hx =>
    List.of_mem_filter hx
  have hmap : (normalise_string s).map pyLowerChar = normalise_string s :=
    map_fix _ fun x hx => pyLowerChar_of_keepChar x (hkeep x hx)
  show (pyStrip ((normalise_string s).map pyLowerChar)).filter keepChar = _
  rw [hmap]
  exact List.filter_eq_self.mpr fun a ha => hkeep a (mem_pyStrip ha)

/-- C7: the tag writer always writes title and artist; it writes album,
genre and release date only when the value is truthy (non-null,
non-empty), and on a file whose container already holds a tag, an absent
value leaves the existing tag unchanged. -/
theorem tag_write_frame (tags0 : Option TagFields) (t : TagFields) (title artist : Str)
    (album : Option Str) (genres : List Str) (release_date : Option Str) :
    (write_id3_tags tags0 title artist album genres release_date).title = some title ∧
    (write_id3_tags tags0 title artist album genres release_date).artist = some artist ∧
    (truthyStr album = true →
      (write_id3_tags (some t) title artist album genres release_date).album = album) ∧
    (truthyStr album = false →
      (write_id3_tags (some t) title artist album genres release_date).album = t.album) ∧
    (genres ≠ [] →
      (write_id3_tags (some t) title artist album genres release_date).genre = some genres) ∧
    (genres = [] →
      (write_id3_tags (some t) title artist album genres release_date).genre = t.genre) ∧
    (truthyStr release_date = true →
      (write_id3_tags (some t) title artist album genres release_date).date = release_date) ∧
    (truthyStr release_date = false →
      (write_id3_tags (some t) title artist album genres release_date).date = t.date) := by
  refine ⟨?_, ?_, fun h => ?_, fun h => ?_, fun h => ?_, fun h => ?_, fun h => ?_, fun h => ?_⟩
  all_goals
    by_cases ha : truthyStr album = true <;>
    by_cases hg : (genres != []) = true <;>
    by_cases hr : truthyStr release_date = true <;>
    simp_all [write_id3_tags, bne_iff_ne]

/-- C7, witness: writing `album = None` on a container that already holds
the album `"z"` keeps it, while the title is written. -/
theorem tag_write_frame_witness :
    (write_id3_tags (some { emptyTags with album := some [122] }) [116] [97] none [] none).title
        = some [116] ∧
    (write_id3_tags (some { emptyTags with album := some [122] }) [116] [97] none [] none).album
        = some [122] := by
  have h := tag_write_frame (some { emptyTags with album := some [122] })
    { emptyTags with album := some [122] } [116] [97] none [] none
  exact ⟨h.1, h.2.2.2.1 rfl⟩

/-- C8: a lookup that succeeds with an empty candidate list still
persists the file, with null `music_id` and `sources.musicbrainz_id`,
title equal to the stem, artist `"Unknown"`, null confidence score, and
no registry call. -/
theorem lookup_no_match_defaults (ctx : FileCtx) (db : DB) (sz : Nat)
    (hdup : find_one_music_file db ctx.resolvedPath = none)
    (h1 : ctx.stat1 = some sz) (h2 : ctx.stat2 = some sz)
    (hmp3 : ctx.mp3Ok = true)
    (hac : ctx.acoustid_result = Except.ok []) :
    ∃ st, (process_file ctx db).2 = Except.ok st ∧ st.outcome = Outcome.indexed ∧
      regCalls (process_file ctx db).1 = [] ∧
      ∃ d, st.db = upsert db ctx.resolvedPath d ∧
        d.music_id = none ∧ d.musicbrainz_id = none ∧ d.title = ctx.stem ∧
        d.artist = strUnknown ∧ d.acoustid_score = none := by
  have hrun := process_file_run ctx db sz hdup h1 h2 hmp3
  refine ⟨pfIndexedState ctx db, by rw [hrun], rfl, ?_, ?_⟩
  · rw [hrun]
    simp [regCalls, pfEnrichEvents, resolveIdentity, hac, enrichGate]
  · exact ⟨buildDoc ctx (resolveIdentity ctx.stem ctx.acoustid_result)
      (pfMBData ctx (resolveIdentity ctx.stem ctx.acoustid_result)), rfl,
      by simp [buildDoc, resolveIdentity, hac],
      by simp [buildDoc, resolveIdentity, hac],
      by simp [buildDoc, resolveIdentity, hac],
      by simp [buildDoc, resolveIdentity, hac, pfMBData, enrichGate, pyOrStr, emptyMBData],
      by simp [buildDoc, resolveIdentity, hac]⟩

/-- C8, witness: the no-match property instantiated on the concrete
context whose lookup returns an empty candidate list. -/
theorem lookup_no_match_defaults_witness :
    ∃ st, (process_file ctxNoMatch []).2 = Except.ok st ∧ st.outcome = Outcome.indexed ∧
      regCalls (process_file ctxNoMatch []).1 = [] ∧
      ∃ d, st.db = upsert [] ctxNoMatch.resolvedPath d ∧
        d.music_id = none ∧ d.musicbrainz_id = none ∧ d.title = ctxNoMatch.stem ∧
        d.artist = strUnknown ∧ d.acoustid_score = none :=
  lookup_no_match_defaults ctxNoMatch [] 10 rfl rfl rfl rfl rfl

/-- C9: every completed run preserves collection well-formedness: each
document persisted by `process_file` carries the file's resolved path as
both `_id` and `music_file`, and at most one document exists per resolved
path. -/
theorem doc_key_invariant (ctx : FileCtx) (db : DB) (st : PFState)
    (hg : goodDB db) (h : (process_file ctx db).2 = Except.ok st) :
    goodDB st.db ∧
    (∀ d ∈ st.db, d ∉ db → d._id = ctx.resolvedPath ∧ d.music_file = ctx.resolvedPath) ∧
    (∀ p : Str, st.db.countP (fun d => d.music_file == p) ≤ 1) := by
  have hdb : goodDB st.db ∧
      ∀ d ∈ st.db, d ∉ db → d._id = ctx.resolvedPath ∧ d.music_file = ctx.resolvedPath := by
    rcases process_file_ok_cases h with ⟨hst, -⟩ | hst
    · rw [hst]
      exact ⟨hg, fun d hd hnd => absurd hd hnd⟩
    · rw [hst]
      constructor
      · exact goodDB_upsert hg rfl rfl
      · intro d hd hnd
        rcases mem_upsert hd with h' | h'
        · exact absurd h' hnd
        · rw [h']
          exact ⟨rfl, rfl⟩
  refine ⟨hdb.1, hdb.2, fun p => ?_⟩
  have hcong : st.db.countP (fun d => d.music_file == p)
      = st.db.countP (fun d => d._id == p) := by
    apply List.countP_congr
    intro d hd
    rw [hdb.1.1 d hd]
  rw [hcong]
  exact countP_id_le_one hdb.1.2 p

/-- C9, witness: the key invariant instantiated on the concrete matched
context run against the empty collection. -/
theorem doc_key_invariant_witness :
    goodDB (pfIndexedState ctxMatched []).db ∧
    (∀ d ∈ (pfIndexedState ctxMatched []).db, d ∉ ([] : DB) →
      d._id = ctxMatched.resolvedPath ∧ d.music_file = ctxMatched.resolvedPath) ∧
    (∀ p : Str, (pfIndexedState ctxMatched []).db.countP (fun d => d.music_file == p) ≤ 1) :=
  doc_key_invariant ctxMatched [] (pfIndexedState ctxMatched [])
    ⟨fun d hd => absurd hd (List.not_mem_nil d), List.nodup_nil⟩ rfl

/-- C10, counterexample: a matched candidate with a missing artist does
not always leave `"Unknown"` in the persisted document: when the registry
supplies an artist credit (here `"x"`), enrichment overrides the
resolution default. -/
theorem per_field_defaults_cex :
    ((process_file ctxNoCandArtist []).2.toOption.map fun st => st.db.map Doc.artist)
      = some [[120]] ∧
    [120] ≠ strUnknown ∧
    ((ctxNoCandArtist.acoustid_result.toOption.map fun l => l.map Candidate.rec_artist)
      = some [none]) := by
  decide

/-- C10, amended: when the lookup succeeds, `music_id` and the confidence
score come from the first candidate; the persisted title falls back to the
file's stem when the candidate title is missing or empty; and the
persisted artist falls back to `"Unknown"` when the candidate artist is
missing or empty, unless MusicBrainz enrichment supplies an artist credit,
which takes precedence. -/
theorem per_field_defaults_amended (ctx : FileCtx) (db : DB) (sz : Nat) (c : Candidate)
    (rest : List Candidate)
    (hdup : find_one_music_file db ctx.resolvedPath = none)
    (h1 : ctx.stat1 = some sz) (h2 : ctx.stat2 = some sz)
    (hmp3 : ctx.mp3Ok = true)
    (hac : ctx.acoustid_result = Except.ok (c :: rest)) :
    ∃ st d, (process_file ctx db).2 = Except.ok st ∧ st.outcome = Outcome.indexed ∧
      st.db = upsert db ctx.resolvedPath d ∧
      d.music_id = some c.uuid ∧
      d.acoustid_score = some c.score ∧
      d.title = pyOrStr c.rec_title ctx.stem ∧
      d.artist = pyOrStr (pfMBData ctx (resolveIdentity ctx.stem ctx.acoustid_result)).mb_artist
        (pyOrStr c.rec_artist strUnknown) := by
  have hrun := process_file_run ctx db sz hdup h1 h2 hmp3
  refine ⟨pfIndexedState ctx db,
    buildDoc ctx (resolveIdentity ctx.stem ctx.acoustid_result)
      (pfMBData ctx (resolveIdentity ctx.stem ctx.acoustid_result)),
    by rw [hrun], rfl, rfl, ?_, ?_, ?_, ?_⟩ <;>
    simp [buildDoc, resolveIdentity, hac]

/-- C10, witness: the amended per-field property instantiated on the
concrete context whose candidate lacks title and artist while the registry
supplies the artist credit `"x"`. -/
theorem per_field_defaults_amended_witness :
    ∃ st d, (process_file ctxNoCandArtist []).2 = Except.ok st ∧
      st.outcome = Outcome.indexed ∧
      st.db = upsert [] ctxNoCandArtist.resolvedPath d ∧
      d.music_id = some [109, 98, 105, 100, 57, 57] ∧
      d.acoustid_score = some 9 ∧
      d.title = pyOrStr none ctxNoCandArtist.stem ∧
      d.artist = pyOrStr
        (pfMBData ctxNoCandArtist
          (resolveIdentity ctxNoCandArtist.stem ctxNoCandArtist.acoustid_result)).mb_artist
        (pyOrStr none strUnknown) :=
  per_field_defaults_amended ctxNoCandArtist [] 10
    { score := 9, uuid := [109, 98, 105, 100, 57, 57], rec_title := none, rec_artist := none }
    [] rfl rfl rfl rfl rfl
